import Mathlib

/-!
Shallow embedding of the cost-estimation Lambda
(`src/CostEstimationLambda.py`, with the reduced variant
`src/EC2CostEstimation-Lambda.py`).

Modelling conventions:
* Python strings are Lean `String`s; regex searches are embedded as
  executable leftmost-match scanners over `List Char`, specialised to the
  concrete patterns appearing in the source.  Digit and whitespace classes
  are modelled over ASCII, the alphabet the program actually receives.
* Python floats are modelled as exact rationals (`Rat`); `round(x, 2)` is
  modelled as exact decimal rounding with ties to even, Python's rounding
  mode.
* Python dict values of heterogeneous type (`"Monthly Cost"` holds either a
  float or the string sentinel) are modelled by `PyVal`; Python `+` on such
  values is the partial `pyAdd`, which is `none` exactly where Python
  raises `TypeError`.
* `dict` iteration order is insertion order, so the EC2 catalog is a list
  of name/capacity pairs.
-/

/-- ASCII decimal digit, the `\d` class on the program's input alphabet. -/
def isDigitChar (c : Char) : Bool := c.isDigit

/-- ASCII whitespace, the `\s` class on the program's input alphabet. -/
def isPySpace (c : Char) : Bool :=
  c = ' ' || c = '\t' || c = '\n' || c = '\x0d' || c = '\x0b' || c = '\x0c'

/-- Numeric value of a digit string, Python `int(...)` on a `\d+` group. -/
def natOfDigits (ds : List Char) : Nat :=
  ds.foldl (fun n c => 10 * n + (c.toNat - '0'.toNat)) 0

/-- Case-sensitive literal match at the head of the input. -/
def litAt : List Char → List Char → Bool
  | [], _ => true
  | _ :: _, [] => false
  | p :: ps, c :: cs => p = c && litAt ps cs

/-- Case-insensitive (ASCII) literal match at the head of the input. -/
def litAtCI : List Char → List Char → Bool
  | [], _ => true
  | _ :: _, [] => false
  | p :: ps, c :: cs => p.toUpper = c.toUpper && litAtCI ps cs

/-- Python `str.upper()` (ASCII). -/
def listUpper (l : List Char) : List Char := l.map Char.toUpper

/-- Python `str.strip()` (ASCII whitespace). -/
def pyStrip (s : String) : String :=
  ⟨((s.data.dropWhile isPySpace).reverse.dropWhile isPySpace).reverse⟩

/-- Attempt of the pattern `(\d+)\s+Cores` anchored at the head:
greedy digits, then at least one whitespace, then the literal `Cores`.
(The classes `\d`, `\s` and the literal are pairwise disjoint, so greedy
matching without backtracking is exact here.) -/
def matchCpuAt (l : List Char) : Option Nat :=
  let ds := l.takeWhile isDigitChar
  let r1 := l.dropWhile isDigitChar
  if ds.isEmpty then none
  else
    let ws := r1.takeWhile isPySpace
    let r2 := r1.dropWhile isPySpace
    if ws.isEmpty then none
    else if litAt ['C', 'o', 'r', 'e', 's'] r2 then some (natOfDigits ds) else none

/-- `re.search(r'(\d+)\s+Cores', s)`: leftmost match, returning group 1. -/
def searchCpu : List Char → Option Nat
  | [] => none
  | c :: cs =>
    match matchCpuAt (c :: cs) with
    | some n => some n
    | none => searchCpu cs

/-- Attempt of the pattern `(\d+)GB` anchored at the head. -/
def matchRamAt (l : List Char) : Option Nat :=
  let ds := l.takeWhile isDigitChar
  let r1 := l.dropWhile isDigitChar
  if ds.isEmpty then none
  else if litAt ['G', 'B'] r1 then some (natOfDigits ds) else none

/-- `re.search(r'(\d+)GB', s)`: leftmost match, returning group 1. -/
def searchRam : List Char → Option Nat
  | [] => none
  | c :: cs =>
    match matchRamAt (c :: cs) with
    | some n => some n
    | none => searchRam cs

/-- Attempt of `(\d+)(TB|GB)` (IGNORECASE) anchored at the head; returns
group 1 as a number and group 2 as the matched two characters. -/
def matchSizeAt (l : List Char) : Option (Nat × List Char) :=
  let ds := l.takeWhile isDigitChar
  let r1 := l.dropWhile isDigitChar
  if ds.isEmpty then none
  else if litAtCI ['T', 'B'] r1 then some (natOfDigits ds, r1.take 2)
  else if litAtCI ['G', 'B'] r1 then some (natOfDigits ds, r1.take 2)
  else none

/-- `re.search(r'(\d+)(TB|GB)', s, re.IGNORECASE)`: leftmost match. -/
def searchSize : List Char → Option (Nat × List Char)
  | [] => none
  | c :: cs =>
    match matchSizeAt (c :: cs) with
    | some r => some r
    | none => searchSize cs

/-- Attempt of `(SSD|HDD|NVMe)` (IGNORECASE) anchored at the head; returns
the matched characters. -/
def matchTypeAt (l : List Char) : Option (List Char) :=
  if litAtCI ['S', 'S', 'D'] l then some (l.take 3)
  else if litAtCI ['H', 'D', 'D'] l then some (l.take 3)
  else if litAtCI ['N', 'V', 'M', 'E'] l then some (l.take 4)
  else none

/-- `re.search(r'(SSD|HDD|NVMe)', s, re.IGNORECASE)`: leftmost match. -/
def searchType : List Char → Option (List Char)
  | [] => none
  | c :: cs =>
    match matchTypeAt (c :: cs) with
    | some r => some r
    | none => searchType cs

/-- One row of the requirements spreadsheet, keys as in the source. -/
structure RawReq where
  serverName : String
  ipAddress : String
  storage : String
  database : String
  cpu : String
  ram : String
deriving DecidableEq, Repr

/-- One record produced by `extract_cpu_ram` in `CostEstimationLambda.py`:
the dict literal at lines 61–68 of the source. -/
structure FilteredReq where
  serverName : String
  ipAddress : String
  storage : String
  database : String
  cpu : Nat
  ram : Nat
deriving DecidableEq, Repr

/-- Body of the `extract_cpu_ram` loop for one record
(`src/CostEstimationLambda.py` lines 56–68). -/
def extract_cpu_ram_one (req : RawReq) : Option FilteredReq :=
  match searchCpu req.cpu.data, searchRam req.ram.data with
  | some c, some r =>
    some { serverName := req.serverName, ipAddress := req.ipAddress,
           storage := req.storage, database := req.database, cpu := c, ram := r }
  | _, _ => none

/-- `extract_cpu_ram` (`src/CostEstimationLambda.py` lines 54–69). -/
def extract_cpu_ram (reqs : List RawReq) : List FilteredReq :=
  reqs.filterMap extract_cpu_ram_one

/-- One record produced by the variant `extract_cpu_ram` in
`EC2CostEstimation-Lambda.py` (lines 60–65): only four keys. -/
structure FilteredReqV where
  serverName : String
  ipAddress : String
  cpu : Nat
  ram : Nat
deriving DecidableEq, Repr

/-- Body of the variant `extract_cpu_ram` loop for one record
(`src/EC2CostEstimation-Lambda.py` lines 55–65). -/
def extract_cpu_ram_v_one (req : RawReq) : Option FilteredReqV :=
  match searchCpu req.cpu.data, searchRam req.ram.data with
  | some c, some r =>
    some { serverName := req.serverName, ipAddress := req.ipAddress, cpu := c, ram := r }
  | _, _ => none

/-- Python `round` to an integer: nearest, ties to even. -/
def pyRoundInt (x : Rat) : Int :=
  let f : Int := ⌊x⌋
  let frac : Rat := x - f
  if frac < 1 / 2 then f
  else if 1 / 2 < frac then f + 1
  else if f % 2 = 0 then f else f + 1

/-- Python `round(x, 2)` on values modelled as exact rationals. -/
def round2 (x : Rat) : Rat := (pyRoundInt (x * 100) : Rat) / 100

/-- The `storage_cost_per_gb` dict (`src/CostEstimationLambda.py` 127–131). -/
def storage_cost_per_gb : List (String × Rat) :=
  [("SSD", 8 / 100), ("HDD", 45 / 1000), ("NVME", 10 / 100)]

/-- The `database_cost_per_gb` dict (`src/CostEstimationLambda.py` 163–169). -/
def database_cost_per_gb : List (String × Rat) :=
  [("MySQL", 10 / 100), ("PostgreSQL", 10 / 100), ("Microsoft SQL Server", 20 / 100),
   ("Oracle Database", 30 / 100), ("Redis", 15 / 100)]

/-- The `for storage in storage_items` loop of `calculate_storage_cost`
(`src/CostEstimationLambda.py` 135–154), accumulating `total_cost`. -/
def storageLoop : List String → Rat → Rat
  | [], acc => acc
  | item :: rest, acc =>
    let st := (pyStrip item).data
    match searchSize st, searchType st with
    | some (v, u), some t =>
      let size_gb : Rat := if listUpper u = ['T', 'B'] then (v : Rat) * 1024 else (v : Rat)
      let storage_type := String.mk (listUpper (pyStrip (String.mk t)).data)
      match List.lookup storage_type storage_cost_per_gb with
      | some cost_per_gb => storageLoop rest (acc + size_gb * cost_per_gb)
      | none => storageLoop rest acc
    | _, _ => storageLoop rest acc

/-- `calculate_storage_cost` (`src/CostEstimationLambda.py` 126–156). -/
def calculate_storage_cost (storage_str : String) : Rat :=
  round2 (storageLoop (storage_str.splitOn "+") 0)

/-- `calculate_database_cost` (`src/CostEstimationLambda.py` 159–190). -/
def calculate_database_cost (database : String) (storage_str : String) : Rat :=
  if database = "None" || (List.lookup database database_cost_per_gb).isNone then 0
  else
    match searchSize storage_str.data with
    | none => 0
    | some (v, u) =>
      let size_gb : Rat := if listUpper u = ['T', 'B'] then (v : Rat) * 1024 else (v : Rat)
      let cost_per_gb := (List.lookup database database_cost_per_gb).getD 0
      round2 (size_gb * cost_per_gb)

/-- Capacity entry of the EC2 catalog dict built by `fetch_ec2_instance_types`
(`src/CostEstimationLambda.py` 30–33).  The `MemoryMiB` field holds the
already-converted whole-gigabyte value, as in the source. -/
structure InstInfo where
  vCPUs : Nat
  MemoryMiB : Nat
deriving DecidableEq, Repr

/-- The running `best_match` dict of `find_best_match`
(`src/CostEstimationLambda.py` 80–84). -/
structure BestMatch where
  InstanceType : String
  vCPUs : Nat
  MemoryMiB : Nat
deriving DecidableEq, Repr

/-- One iteration of the inner loop of `find_best_match`
(`src/CostEstimationLambda.py` 77–84): `best_match` is updated when the
candidate qualifies and either no best exists yet or the candidate beats
it on vCPUs or on memory. -/
def bestStep (req : FilteredReq) (best : Option BestMatch) (p : String × InstInfo) :
    Option BestMatch :=
  if p.2.vCPUs ≥ req.cpu ∧ p.2.MemoryMiB ≥ req.ram then
    match best with
    | none => some ⟨p.1, p.2.vCPUs, p.2.MemoryMiB⟩
    | some b =>
      if p.2.vCPUs < b.vCPUs ∨ p.2.MemoryMiB < b.MemoryMiB then
        some ⟨p.1, p.2.vCPUs, p.2.MemoryMiB⟩
      else some b
  else best

/-- The inner loop of `find_best_match` for one requirement
(`src/CostEstimationLambda.py` 76–84): fold over the catalog in its
supplied order, carrying `best_match`. -/
def find_best_match_one (req : FilteredReq) (ec2 : List (String × InstInfo)) :
    Option BestMatch :=
  ec2.foldl (bestStep req) none

/-- The matched-record dict appended by `find_best_match`
(`src/CostEstimationLambda.py` 87–95).  Its `CPU` and `RAM` keys hold the
chosen instance's capacities, not the requirement's numbers. -/
structure MatchedInst where
  serverName : String
  ipAddress : String
  cpu : Nat
  ram : Nat
  instanceType : String
  storage : String
  database : String
deriving DecidableEq, Repr

/-- `find_best_match` (`src/CostEstimationLambda.py` 72–96). -/
def find_best_match (filtered : List FilteredReq) (ec2 : List (String × InstInfo)) :
    List MatchedInst :=
  filtered.filterMap fun req =>
    (find_best_match_one req ec2).map fun b =>
      { serverName := req.serverName, ipAddress := req.ipAddress,
        cpu := b.vCPUs, ram := b.MemoryMiB, instanceType := b.InstanceType,
        storage := req.storage, database := req.database }


/-- A Python value as stored in the result dicts: either a number (floats
modelled as exact rationals) or a string. -/
inductive PyVal where
  | num : Rat → PyVal
  | str : String → PyVal
deriving DecidableEq, Repr

/-- Python `+` on `PyVal`s: number addition and string concatenation are
defined; adding a string to a number raises `TypeError`, modelled as
`none`. -/
def pyAdd : PyVal → PyVal → Option PyVal
  | PyVal.num a, PyVal.num b => some (PyVal.num (a + b))
  | PyVal.str a, PyVal.str b => some (PyVal.str (a ++ b))
  | _, _ => none

/-- Python `round(v, 2)` on a `PyVal`: raises `TypeError` on a string. -/
def pyRound2Val : PyVal → Option PyVal
  | PyVal.num a => some (PyVal.num (round2 a))
  | PyVal.str _ => none

/-- The `Monthly Cost` value assigned in the pricing loop
(`src/CostEstimationLambda.py` 235–239): the rounded monthly compute cost
when an hourly price is available, the string sentinel otherwise. -/
def monthlyCostVal (hourly_price : Option Rat) : PyVal :=
  match hourly_price with
  | some p => PyVal.num (round2 (p * 24 * 30))
  | none => PyVal.str "Price Not Available"

/-- A matched-instance dict after the pricing loop has added the four cost
keys (`src/CostEstimationLambda.py` 231–245). -/
structure PricedInst where
  base : MatchedInst
  monthlyCost : PyVal
  monthlyStorageCost : Rat
  monthlyDatabaseCost : Rat
  totalPricing : PyVal
deriving DecidableEq, Repr

/-- One iteration of the pricing loop (`src/CostEstimationLambda.py`
231–245) for a matched record and the hourly price its lookup returned.
`Total Pricing` is `round(monthly + storage + database, 2)`, evaluated
left to right with Python `+`; the result is `none` exactly where Python
raises (`TypeError` when the string sentinel meets a number). -/
def priceInstance (m : MatchedInst) (hourly_price : Option Rat) : Option PricedInst :=
  let mc := monthlyCostVal hourly_price
  let msc := calculate_storage_cost m.storage
  let mdc := calculate_database_cost m.database m.storage
  match pyAdd mc (PyVal.num msc) with
  | none => none
  | some s1 =>
    match pyAdd s1 (PyVal.num mdc) with
    | none => none
    | some s2 =>
      match pyRound2Val s2 with
      | none => none
      | some t =>
        some { base := m, monthlyCost := mc, monthlyStorageCost := msc,
               monthlyDatabaseCost := mdc, totalPricing := t }

/-- The whole pricing loop over the matched records, with `price` the
result of `get_instance_price` per instance type; `none` when any
iteration raises. -/
def pricingLoop (ms : List MatchedInst) (price : String → Option Rat) :
    Option (List PricedInst) :=
  ms.mapM fun m => priceInstance m (price m.instanceType)

/-- Return value of `lambda_handler`: status code and body message. -/
structure LambdaResult where
  statusCode : Nat
  body : String
deriving DecidableEq, Repr

/-- `lambda_handler` (`src/CostEstimationLambda.py` 217–256), with the I/O
collaborators abstracted into inputs: `ec2` the fetched catalog, `reqs`
the fetched requirement rows, `price` the hourly-price lookup, and
`storeSuccess` the outcome reported by `store_results_in_s3_csv`.  A
`TypeError` in the pricing loop is caught by the outer `except`, which
returns status 500. -/
def lambda_handler (ec2 : List (String × InstInfo)) (reqs : List RawReq)
    (price : String → Option Rat) (storeSuccess : Bool) : LambdaResult :=
  if reqs.isEmpty then
    { statusCode := 500, body := "Failed to fetch requirements from S3." }
  else
    let filtered := extract_cpu_ram reqs
    let matched := find_best_match filtered ec2
    match pricingLoop matched price with
    | none => { statusCode := 500, body := "Unexpected error: TypeError" }
    | some _ =>
      if storeSuccess then
        { statusCode := 200, body := "CSV stored successfully" }
      else
        { statusCode := 500, body := "Failed to upload CSV results to S3." }

/-- Per-component contribution of the `calculate_storage_cost` loop: the
amount one `+`-separated component adds to `total_cost`
(`src/CostEstimationLambda.py` 135–154). -/
def componentCost (item : String) : Rat :=
  let st := (pyStrip item).data
  match searchSize st, searchType st with
  | some (v, u), some t =>
    let size_gb : Rat := if listUpper u = ['T', 'B'] then (v : Rat) * 1024 else (v : Rat)
    match List.lookup (String.mk (listUpper (pyStrip (String.mk t)).data))
        storage_cost_per_gb with
    | some cost_per_gb => size_gb * cost_per_gb
    | none => 0
  | _, _ => 0

/-- The storage-component grammar as the spec states it (§3): the whole
stripped component is `<integer><unit><optional whitespace><type>` with
unit in GB/TB and type in SSD/HDD/NVMe, case-insensitive.  Stated from the
spec's words, to be compared against what the code accepts. -/
def matchesClaimGrammar (c : String) : Bool :=
  let l := (pyStrip c).data
  let ds := l.takeWhile isDigitChar
  let r1 := l.dropWhile isDigitChar
  if ds.isEmpty then false
  else if litAtCI ['G', 'B'] r1 || litAtCI ['T', 'B'] r1 then
    let r2 := (r1.drop 2).dropWhile isPySpace
    (litAtCI ['S', 'S', 'D'] r2 && r2.length = 3) ||
    (litAtCI ['H', 'D', 'D'] r2 && r2.length = 3) ||
    (litAtCI ['N', 'V', 'M', 'E'] r2 && r2.length = 4)
  else false

/-- The matcher's inner replacement loop as the spec states it (§4.2):
starting from a running best, replace it by a later qualifying candidate
exactly when that candidate's vCPU count is strictly below the best's or
its memory is strictly below the best's.  Stated from the spec's words,
to be compared against `find_best_match_one`. -/
def matchLoopSpec (req : FilteredReq) : BestMatch → List (String × InstInfo) → BestMatch
  | best, [] => best
  | best, p :: rest =>
    if (req.cpu ≤ p.2.vCPUs ∧ req.ram ≤ p.2.MemoryMiB) ∧
        (p.2.vCPUs < best.vCPUs ∨ p.2.MemoryMiB < best.MemoryMiB) then
      matchLoopSpec req ⟨p.1, p.2.vCPUs, p.2.MemoryMiB⟩ rest
    else
      matchLoopSpec req best rest

/-- The matcher as the spec states it (§4.2): scan the catalog in supplied
order, take the first qualifying candidate as the initial best, then run
the replacement loop; `none` when no candidate qualifies. -/
def matchSpec (req : FilteredReq) : List (String × InstInfo) → Option BestMatch
  | [] => none
  | p :: rest =>
    if req.cpu ≤ p.2.vCPUs ∧ req.ram ≤ p.2.MemoryMiB then
      some (matchLoopSpec req ⟨p.1, p.2.vCPUs, p.2.MemoryMiB⟩ rest)
    else
      matchSpec req rest

/-- The Python dict built by `extract_cpu_ram` for one accepted record
(`src/CostEstimationLambda.py` 61–68), keys in source order. -/
def FilteredReq.toDict (r : FilteredReq) : List (String × PyVal) :=
  [("Server Name", PyVal.str r.serverName), ("IP Address", PyVal.str r.ipAddress),
   ("Storage", PyVal.str r.storage), ("Database", PyVal.str r.database),
   ("CPU", PyVal.num (r.cpu : Rat)), ("RAM", PyVal.num (r.ram : Rat))]

/-- The Python dict built by the variant `extract_cpu_ram` for one
accepted record (`src/EC2CostEstimation-Lambda.py` 60–65): no `Storage`
or `Database` key. -/
def FilteredReqV.toDict (r : FilteredReqV) : List (String × PyVal) :=
  [("Server Name", PyVal.str r.serverName), ("IP Address", PyVal.str r.ipAddress),
   ("CPU", PyVal.num (r.cpu : Rat)), ("RAM", PyVal.num (r.ram : Rat))]

/-! ## Lemmas -/

/-- Every `best_match` the step produces satisfies the requirement,
provided the incoming one does. -/
theorem bestStep_suff (req : FilteredReq) (acc : Option BestMatch) (p : String × InstInfo)
    (h : ∀ b, acc = some b → req.cpu ≤ b.vCPUs ∧ req.ram ≤ b.MemoryMiB) :
    ∀ b, bestStep req acc p = some b → req.cpu ≤ b.vCPUs ∧ req.ram ≤ b.MemoryMiB := by
  intro b hb
  cases acc with
  | none =>
    dsimp only [bestStep] at hb
    split at hb
    · rename_i hq
      simp only [Option.some.injEq] at hb
      subst hb
      exact ⟨hq.1, hq.2⟩
    · exact Option.noConfusion hb
  | some a =>
    dsimp only [bestStep] at hb
    split at hb
    · rename_i hq
      split at hb <;> simp only [Option.some.injEq] at hb <;> subst hb
      · exact ⟨hq.1, hq.2⟩
      · exact h a rfl
    · exact h b hb

/-- The fold preserves requirement sufficiency of the running best. -/
theorem foldl_bestStep_suff (req : FilteredReq) :
    ∀ (l : List (String × InstInfo)) (acc : Option BestMatch),
      (∀ b, acc = some b → req.cpu ≤ b.vCPUs ∧ req.ram ≤ b.MemoryMiB) →
      ∀ b, l.foldl (bestStep req) acc = some b →
        req.cpu ≤ b.vCPUs ∧ req.ram ≤ b.MemoryMiB := by
  intro l
  induction l with
  | nil => intro acc h b hb; exact h b hb
  | cons p rest ih =>
    intro acc h b hb
    exact ih (bestStep req acc p) (bestStep_suff req acc p h) b hb

/-! ## Claim theorems -/

/-- Claim C1: for every normalized requirement and every catalog, an
instance selected by the matcher has at least the required vCPUs and
memory, and every record in the matcher's output arises from some input
requirement whose CPU and RAM it covers. -/
theorem claim_C1_sufficiency :
    (∀ (req : FilteredReq) (ec2 : List (String × InstInfo)) (b : BestMatch),
      find_best_match_one req ec2 = some b →
      req.cpu ≤ b.vCPUs ∧ req.ram ≤ b.MemoryMiB) ∧
    (∀ (filtered : List FilteredReq) (ec2 : List (String × InstInfo)) (m : MatchedInst),
      m ∈ find_best_match filtered ec2 →
      ∃ req ∈ filtered, req.cpu ≤ m.cpu ∧ req.ram ≤ m.ram) := by
  have hone : ∀ (req : FilteredReq) (ec2 : List (String × InstInfo)) (b : BestMatch),
      find_best_match_one req ec2 = some b →
      req.cpu ≤ b.vCPUs ∧ req.ram ≤ b.MemoryMiB := by
    intro req ec2 b hb
    exact foldl_bestStep_suff req ec2 none (fun b h => Option.noConfusion h) b hb
  exact ⟨hone, by
    intro filtered ec2 m hm
    simp only [find_best_match, List.mem_filterMap] at hm
    obtain ⟨req, hreq, hmap⟩ := hm
    cases hb : find_best_match_one req ec2 with
    | none => rw [hb] at hmap; exact Option.noConfusion hmap
    | some b =>
      rw [hb] at hmap
      simp only [Option.map_some', Option.some.injEq] at hmap
      subst hmap
      exact ⟨req, hreq, (hone req ec2 b hb).1, (hone req ec2 b hb).2⟩⟩

/-- Witness for C1 at a concrete requirement and one-element catalog. -/
theorem claim_C1_sufficiency_witness : (2 : Nat) ≤ 2 ∧ (4 : Nat) ≤ 4 :=
  claim_C1_sufficiency.1 ⟨"srv1", "10.0.0.1", "100GB SSD", "None", 2, 4⟩
    [("t3.medium", ⟨2, 4⟩)] ⟨"t3.medium", 2, 4⟩ (by decide)

/-- With a running best already present, the code's fold is the spec's
replacement loop. -/
theorem foldl_bestStep_eq_matchLoopSpec (req : FilteredReq) :
    ∀ (l : List (String × InstInfo)) (b : BestMatch),
      l.foldl (bestStep req) (some b) = some (matchLoopSpec req b l) := by
  intro l
  induction l with
  | nil => intro b; rfl
  | cons p rest ih =>
    intro b
    simp only [List.foldl_cons, matchLoopSpec]
    by_cases hq : p.2.vCPUs ≥ req.cpu ∧ p.2.MemoryMiB ≥ req.ram
    · by_cases hlt : p.2.vCPUs < b.vCPUs ∨ p.2.MemoryMiB < b.MemoryMiB
      · rw [show bestStep req (some b) p = some ⟨p.1, p.2.vCPUs, p.2.MemoryMiB⟩ by
          simp [bestStep, hq, hlt], if_pos ⟨hq, hlt⟩, ih]
      · rw [show bestStep req (some b) p = some b by simp [bestStep, hq, hlt],
          if_neg (fun hc => hlt hc.2), ih]
    · rw [show bestStep req (some b) p = some b by simp [bestStep, hq],
        if_neg (fun hc => hq hc.1), ih]

/-- The code's matcher equals the spec's matcher. -/
theorem find_best_match_one_eq_matchSpec (req : FilteredReq) :
    ∀ l : List (String × InstInfo), find_best_match_one req l = matchSpec req l := by
  intro l
  induction l with
  | nil => rfl
  | cons p rest ih =>
    simp only [find_best_match_one, List.foldl_cons, matchSpec]
    by_cases hq : req.cpu ≤ p.2.vCPUs ∧ req.ram ≤ p.2.MemoryMiB
    · rw [show bestStep req none p = some ⟨p.1, p.2.vCPUs, p.2.MemoryMiB⟩ by
        simp [bestStep, hq.1, hq.2], if_pos hq]
      exact foldl_bestStep_eq_matchLoopSpec req rest _
    · rw [show bestStep req none p = none by
        simp only [bestStep]; rw [if_neg hq], if_neg hq]
      exact ih

/-- Claim C3: the matcher scans the catalog in supplied order, takes the
first sufficient instance as initial best, replaces the best exactly when
a later sufficient instance has strictly fewer vCPUs or strictly less
memory, and returns `none` when no instance qualifies (in particular on
the empty catalog). -/
theorem claim_C3_matcher_algorithm :
    (∀ (req : FilteredReq) (cat : List (String × InstInfo)),
      find_best_match_one req cat = matchSpec req cat) ∧
    (∀ req : FilteredReq, find_best_match_one req [] = none) ∧
    (∀ (req : FilteredReq) (cat : List (String × InstInfo)),
      (∀ p ∈ cat, ¬(req.cpu ≤ p.2.vCPUs ∧ req.ram ≤ p.2.MemoryMiB)) →
      find_best_match_one req cat = none) := by
  refine ⟨fun req cat => find_best_match_one_eq_matchSpec req cat,
    fun req => rfl, fun req cat hnone => ?_⟩
  rw [find_best_match_one_eq_matchSpec]
  induction cat with
  | nil => rfl
  | cons p rest ih =>
    simp only [matchSpec]
    rw [if_neg (hnone p (List.mem_cons_self p rest))]
    exact ih (fun q hq => hnone q (List.mem_cons_of_mem p hq))

/-- Witness for C3 at a concrete requirement and an all-insufficient
catalog. -/
theorem claim_C3_matcher_algorithm_witness :
    find_best_match_one ⟨"srv1", "10.0.0.1", "100GB SSD", "None", 4, 8⟩
      [("t2.nano", ⟨1, 1⟩), ("t2.micro", ⟨1, 1⟩)] = none :=
  claim_C3_matcher_algorithm.2.2 ⟨"srv1", "10.0.0.1", "100GB SSD", "None", 4, 8⟩
    [("t2.nano", ⟨1, 1⟩), ("t2.micro", ⟨1, 1⟩)] (by decide)

/-- Claim C4: the parser drops a record exactly when the CPU field has no
`(\d+)\s+Cores` match or the RAM field has no `(\d+)GB` match; when both
match, the extracted integers are the matched digit groups; `"4 Cores"` /
`"16GB"` give 4 and 16, `"four cores"` gives a dropped record. -/
theorem claim_C4_cpu_ram_extraction :
    (∀ req : RawReq,
      (extract_cpu_ram_one req = none ↔
        searchCpu req.cpu.data = none ∨ searchRam req.ram.data = none)) ∧
    (∀ (req : RawReq) (fr : FilteredReq), extract_cpu_ram_one req = some fr →
      searchCpu req.cpu.data = some fr.cpu ∧ searchRam req.ram.data = some fr.ram) ∧
    extract_cpu_ram_one ⟨"s1", "10.0.0.1", "100GB SSD", "None", "4 Cores", "16GB"⟩ =
      some ⟨"s1", "10.0.0.1", "100GB SSD", "None", 4, 16⟩ ∧
    extract_cpu_ram_one ⟨"s1", "10.0.0.1", "100GB SSD", "None", "four cores", "16GB"⟩ =
      none := by
  refine ⟨fun req => ?_, fun req fr hfr => ?_, by decide, by decide⟩
  · unfold extract_cpu_ram_one
    cases hc : searchCpu req.cpu.data <;> cases hr : searchRam req.ram.data <;> simp
  · unfold extract_cpu_ram_one at hfr
    cases hc : searchCpu req.cpu.data <;> rw [hc] at hfr
    · exact Option.noConfusion hfr
    · cases hr : searchRam req.ram.data <;> rw [hr] at hfr
      · exact Option.noConfusion hfr
      · simp only [Option.some.injEq] at hfr
        subst hfr
        exact ⟨rfl, rfl⟩

/-- Witness for C4 on a concrete accepted record. -/
theorem claim_C4_cpu_ram_extraction_witness :
    searchCpu ("4 Cores").data = some 4 ∧ searchRam ("16GB").data = some 16 :=
  claim_C4_cpu_ram_extraction.2.1 ⟨"s1", "10.0.0.1", "100GB SSD", "None", "4 Cores", "16GB"⟩
    ⟨"s1", "10.0.0.1", "100GB SSD", "None", 4, 16⟩ (by decide)

set_option maxRecDepth 8000

/-- The storage loop accumulates exactly the per-component contributions. -/
theorem storageLoop_eq_sum :
    ∀ (l : List String) (acc : Rat),
      storageLoop l acc = acc + (l.map componentCost).sum := by
  intro l
  induction l with
  | nil => intro acc; simp [storageLoop]
  | cons item rest ih =>
    intro acc
    rcases hs : searchSize (pyStrip item).data with _ | ⟨v, u⟩ <;>
      rcases ht : searchType (pyStrip item).data with _ | t <;>
      simp only [storageLoop, componentCost, hs, ht, List.map_cons, List.sum_cons, ih]
    · ring
    · ring
    · ring
    · rcases hl : List.lookup (String.mk (listUpper (pyStrip (String.mk t)).data))
          storage_cost_per_gb with _ | cpg <;> simp only [hl, ih] <;> ring

/-- A component one of whose two searches fails contributes nothing. -/
theorem componentCost_eq_zero (c : String)
    (h : searchSize (pyStrip c).data = none ∨ searchType (pyStrip c).data = none) :
    componentCost c = 0 := by
  rcases hs : searchSize (pyStrip c).data with _ | ⟨v, u⟩ <;>
    rcases ht : searchType (pyStrip c).data with _ | t <;>
    simp only [componentCost, hs, ht]
  rcases h with h | h
  · exact Option.noConfusion (hs ▸ h)
  · exact Option.noConfusion (ht ▸ h)

/-- A component whose two searches both succeed contributes its size in
gigabytes times the rate of its (uppercased) type. -/
theorem componentCost_eq_formula (c : String) (v : Nat) (u t : List Char)
    (hs : searchSize (pyStrip c).data = some (v, u))
    (ht : searchType (pyStrip c).data = some t) :
    componentCost c =
      (if listUpper u = ['T', 'B'] then (v : Rat) * 1024 else (v : Rat)) *
        ((List.lookup (String.mk (listUpper (pyStrip (String.mk t)).data))
            storage_cost_per_gb).getD 0) := by
  rcases hl : List.lookup (String.mk (listUpper (pyStrip (String.mk t)).data))
      storage_cost_per_gb with _ | cpg <;>
    simp only [componentCost, hs, ht, hl, Option.getD_some, Option.getD_none, mul_zero]

/-- Claim C5: storage cost splits on `+`, sums each valid component's
gigabyte size (1 TB = 1024 GB) times its type's rate (SSD 0.08, HDD 0.045,
NVMe 0.10) and rounds to 2 decimals; `"500GB SSD + 1TB HDD"` costs 86.08,
and the empty or all-invalid descriptor costs 0. -/
theorem claim_C5_storage_cost :
    (∀ s : String, calculate_storage_cost s =
      round2 (((s.splitOn "+").map componentCost).sum)) ∧
    calculate_storage_cost "500GB SSD + 1TB HDD" = 8608 / 100 ∧
    calculate_storage_cost "" = 0 ∧
    componentCost "1GB SSD" = 8 / 100 ∧
    componentCost "1GB HDD" = 45 / 1000 ∧
    componentCost "1GB NVMe" = 10 / 100 ∧
    componentCost "1TB SSD" = 1024 * (8 / 100) ∧
    (∀ s : String,
      (∀ c ∈ s.splitOn "+",
        searchSize (pyStrip c).data = none ∨ searchType (pyStrip c).data = none) →
      calculate_storage_cost s = 0) := by
  have hsum : ∀ s : String, calculate_storage_cost s =
      round2 (((s.splitOn "+").map componentCost).sum) := by
    intro s
    unfold calculate_storage_cost
    rw [storageLoop_eq_sum, zero_add]
  refine ⟨hsum, by with_unfolding_all decide, by with_unfolding_all decide,
    by with_unfolding_all decide, by with_unfolding_all decide,
    by with_unfolding_all decide, by with_unfolding_all decide,
    fun s hall => ?_⟩
  rw [hsum s, List.sum_eq_zero, show round2 0 = 0 from by with_unfolding_all decide]
  intro x hx
  obtain ⟨c, hc, hcx⟩ := List.mem_map.mp hx
  rw [← hcx]
  exact componentCost_eq_zero c (hall c hc)

/-- Witness for C5 on a descriptor with no valid component. -/
theorem claim_C5_storage_cost_witness : calculate_storage_cost "no disks" = 0 :=
  claim_C5_storage_cost.2.2.2.2.2.2.2 "no disks" (by with_unfolding_all decide)

/-- Claim C6: database cost is 0 for the sentinel `"None"` and for
unrecognized kinds; for a recognized kind it is the first `(\d+)(TB|GB)`
match in the whole storage descriptor, converted to gigabytes, times the
kind's rate, rounded to 2 decimals; `("MySQL", "200GB SSD")` costs 20.00,
and only the first component's size counts. -/
theorem claim_C6_database_cost :
    (∀ s : String, calculate_database_cost "None" s = 0) ∧
    (∀ (db s : String), List.lookup db database_cost_per_gb = none →
      calculate_database_cost db s = 0) ∧
    (∀ (db s : String) (r : Rat), List.lookup db database_cost_per_gb = some r →
      calculate_database_cost db s =
        match searchSize s.data with
        | none => 0
        | some (v, u) =>
          round2 ((if listUpper u = ['T', 'B'] then (v : Rat) * 1024 else (v : Rat)) * r)) ∧
    calculate_database_cost "MySQL" "200GB SSD" = 20 ∧
    calculate_database_cost "MySQL" "200GB SSD + 1TB HDD" = 20 := by
  refine ⟨fun s => rfl, fun db s h => ?_, fun db s r h => ?_,
    by with_unfolding_all decide, by with_unfolding_all decide⟩
  · unfold calculate_database_cost
    rw [if_pos]
    simp [h]
  · have hne : db ≠ "None" := by
      intro heq
      subst heq
      rw [show List.lookup "None" database_cost_per_gb = none from by decide] at h
      exact Option.noConfusion h
    unfold calculate_database_cost
    rw [h, if_neg (by simp [hne])]
    cases hs : searchSize s.data with
    | none => rfl
    | some p => cases p with | mk v u => rfl

/-- Witness for C6 on a recognized kind with a terabyte first component. -/
theorem claim_C6_database_cost_witness :
    calculate_database_cost "Redis" "1TB HDD" = 1536 / 10 := by
  rw [claim_C6_database_cost.2.2.1 "Redis" "1TB HDD" (15 / 100)
    (by with_unfolding_all decide)]
  with_unfolding_all decide

/-- Counterexample for C7: the component `"SSD 500GB"` does not match the
claimed grammar `<integer><unit><optional-whitespace><type>` (type follows
unit there), yet the code prices it at 40.00, because the two regex
searches are independent of order and position within the component. -/
theorem claim_C7_grammar_counterexample :
    matchesClaimGrammar "SSD 500GB" = false ∧
    calculate_storage_cost "SSD 500GB" = 40 := by
  with_unfolding_all decide

/-- Claim C7 as amended: a `+`-separated component contributes exactly
when it contains, anywhere and in any order, a digits-immediately-
followed-by-GB-or-TB match and an SSD/HDD/NVMe match (both
case-insensitive); a component failing either search is skipped and
contributes nothing, without aborting the computation. -/
theorem claim_C7_component_contribution :
    (∀ s : String, calculate_storage_cost s =
      round2 (((s.splitOn "+").map componentCost).sum)) ∧
    (∀ c : String,
      (searchSize (pyStrip c).data = none ∨ searchType (pyStrip c).data = none) →
      componentCost c = 0) ∧
    (∀ (c : String) (v : Nat) (u t : List Char),
      searchSize (pyStrip c).data = some (v, u) →
      searchType (pyStrip c).data = some t →
      componentCost c =
        (if listUpper u = ['T', 'B'] then (v : Rat) * 1024 else (v : Rat)) *
          ((List.lookup (String.mk (listUpper (pyStrip (String.mk t)).data))
              storage_cost_per_gb).getD 0)) ∧
    componentCost "SSD 500GB" = 40 := by
  refine ⟨fun s => ?_, componentCost_eq_zero, componentCost_eq_formula,
    by with_unfolding_all decide⟩
  unfold calculate_storage_cost
  rw [storageLoop_eq_sum, zero_add]

/-- Witness for C7 on a component with no type keyword. -/
theorem claim_C7_component_contribution_witness : componentCost "raid array" = 0 :=
  claim_C7_component_contribution.2.1 "raid array"
    (Or.inr (by with_unfolding_all decide))

/-- Claim C2 (code bug): when the hourly price lookup returns `None`, the
record's `Monthly Cost` is the explicit string sentinel, not zero — but
the subsequent `Total Pricing` computation adds that string to the
storage and database floats, a `TypeError`: no priced record with
`total = storage + database` is ever produced, and the whole invocation
aborts with status 500. -/
theorem claim_C2_price_unavailable_type_error :
    (∀ m : MatchedInst,
      monthlyCostVal none = PyVal.str "Price Not Available" ∧
      monthlyCostVal none ≠ PyVal.num 0 ∧
      priceInstance m none = none) ∧
    lambda_handler [("m5.xlarge", ⟨4, 16⟩)]
      [⟨"s1", "10.0.0.1", "100GB SSD", "MySQL", "4 Cores", "16GB"⟩]
      (fun _ => none) true = ⟨500, "Unexpected error: TypeError"⟩ := by
  refine ⟨fun m => ⟨rfl, fun h => PyVal.noConfusion h, rfl⟩,
    by with_unfolding_all decide⟩

/-- Claim C8: an empty fetched requirement list makes the handler return
failure at once (independently of every other collaborator), and a failed
report upload makes the handler return failure. -/
theorem claim_C8_collaborator_failures :
    (∀ (ec2 : List (String × InstInfo)) (price : String → Option Rat) (store : Bool),
      lambda_handler ec2 [] price store =
        ⟨500, "Failed to fetch requirements from S3."⟩) ∧
    (∀ (ec2 : List (String × InstInfo)) (reqs : List RawReq)
        (price : String → Option Rat), reqs ≠ [] →
      (pricingLoop (find_best_match (extract_cpu_ram reqs) ec2) price).isSome = true →
      lambda_handler ec2 reqs price false =
        ⟨500, "Failed to upload CSV results to S3."⟩) := by
  constructor
  · intro ec2 price store
    rfl
  · intro ec2 reqs price hne hsome
    cases reqs with
    | nil => exact absurd rfl hne
    | cons a as =>
      obtain ⟨l, hl⟩ := Option.isSome_iff_exists.mp hsome
      unfold lambda_handler
      rw [if_neg (by simp)]
      dsimp only
      rw [hl]
      rfl

/-- Witness for C8: a concrete run whose upload collaborator fails. -/
theorem claim_C8_collaborator_failures_witness :
    lambda_handler [("m5.xlarge", ⟨4, 16⟩)]
      [⟨"s1", "10.0.0.1", "100GB SSD", "MySQL", "4 Cores", "16GB"⟩]
      (fun _ => some (1 / 10)) false =
      ⟨500, "Failed to upload CSV results to S3."⟩ :=
  claim_C8_collaborator_failures.2 [("m5.xlarge", ⟨4, 16⟩)]
    [⟨"s1", "10.0.0.1", "100GB SSD", "MySQL", "4 Cores", "16GB"⟩]
    (fun _ => some (1 / 10)) (by simp) (by with_unfolding_all decide)

/-- Counterexample for C9: the variant parser in
`EC2CostEstimation-Lambda.py` accepts this raw record but its normalized
dict has no `Storage` key at all, so the Storage field is not the raw
record's `"100GB SSD"`. -/
theorem claim_C9_passthrough_counterexample :
    (extract_cpu_ram_v_one
        ⟨"s1", "10.0.0.1", "100GB SSD", "MySQL", "4 Cores", "16GB"⟩).map
      (fun fr => List.lookup "Storage" fr.toDict) = some none ∧
    (⟨"s1", "10.0.0.1", "100GB SSD", "MySQL", "4 Cores", "16GB"⟩ : RawReq).storage =
      "100GB SSD" := by
  with_unfolding_all decide

/-- Claim C9 as amended: the parser of `CostEstimationLambda.py` passes
Server Name, IP Address, Storage and Database through unchanged; the
variant parser of `EC2CostEstimation-Lambda.py` passes through only
Server Name and IP Address, and its output has no Storage or Database
field. -/
theorem claim_C9_field_passthrough :
    (∀ (raw : RawReq) (fr : FilteredReq), extract_cpu_ram_one raw = some fr →
      fr.serverName = raw.serverName ∧ fr.ipAddress = raw.ipAddress ∧
      fr.storage = raw.storage ∧ fr.database = raw.database) ∧
    (∀ (raw : RawReq) (fr : FilteredReqV), extract_cpu_ram_v_one raw = some fr →
      fr.serverName = raw.serverName ∧ fr.ipAddress = raw.ipAddress ∧
      List.lookup "Storage" fr.toDict = none ∧
      List.lookup "Database" fr.toDict = none) := by
  constructor
  · intro raw fr h
    unfold extract_cpu_ram_one at h
    cases hc : searchCpu raw.cpu.data <;> rw [hc] at h
    · exact Option.noConfusion h
    · cases hr : searchRam raw.ram.data <;> rw [hr] at h
      · exact Option.noConfusion h
      · simp only [Option.some.injEq] at h
        subst h
        exact ⟨rfl, rfl, rfl, rfl⟩
  · intro raw fr h
    unfold extract_cpu_ram_v_one at h
    cases hc : searchCpu raw.cpu.data <;> rw [hc] at h
    · exact Option.noConfusion h
    · cases hr : searchRam raw.ram.data <;> rw [hr] at h
      · exact Option.noConfusion h
      · simp only [Option.some.injEq] at h
        subst h
        exact ⟨rfl, rfl, rfl, rfl⟩

/-- Witness for C9 on a concrete accepted record of the variant parser. -/
theorem claim_C9_field_passthrough_witness :
    ("s1" : String) = "s1" ∧ ("10.0.0.1" : String) = "10.0.0.1" ∧
    List.lookup "Storage" (FilteredReqV.toDict ⟨"s1", "10.0.0.1", 4, 16⟩) = none ∧
    List.lookup "Database" (FilteredReqV.toDict ⟨"s1", "10.0.0.1", 4, 16⟩) = none :=
  claim_C9_field_passthrough.2
    ⟨"s1", "10.0.0.1", "100GB SSD", "MySQL", "4 Cores", "16GB"⟩
    ⟨"s1", "10.0.0.1", 4, 16⟩ (by with_unfolding_all decide)

/-- Claim C10: for a recognized database kind and a storage descriptor
with no size match anywhere, the database cost silently evaluates to 0. -/
theorem claim_C10_missing_size_zero :
    ∀ (db s : String) (r : Rat), List.lookup db database_cost_per_gb = some r →
      searchSize s.data = none → calculate_database_cost db s = 0 := by
  intro db s r h hs
  unfold calculate_database_cost
  split
  · rfl
  · rw [hs]

/-- Witness for C10: MySQL with a storage descriptor carrying no size. -/
theorem claim_C10_missing_size_zero_witness :
    calculate_database_cost "MySQL" "just disks" = 0 :=
  claim_C10_missing_size_zero "MySQL" "just disks" (10 / 100)
    (by with_unfolding_all decide) (by with_unfolding_all decide)
